import Mathlib

/-!
Shallow embedding of the zerolend pyth-wormhole-bridge claim-token program
(src/solana/programs/claim-token): the wire codec for cross-chain messages
(message.rs), the entitlement decoder and received-message state
(state/received.rs), and the instruction handlers of lib.rs
(claim_token, register_emitter, receive_message).

Bytes are modelled as natural numbers below 256 and byte strings as lists of
naturals; u64 and u16 values are naturals.  Fallible Rust code returning
Result is modelled with Except or with explicit outcome types; Rust panics
(out-of-range slice indexing, unwrap of an Err) are modelled by a dedicated
outcome constructor.  Solana account state is passed explicitly: each handler
takes the relevant accounts as arguments and returns the new account values,
and a failing instruction commits no state at all, which models the runtime
rollback of every account write of an aborted transaction.
-/

namespace ClaimTokenBridge

/-! ## Wire codec (message.rs) -/

/-- Tag byte of the `Alive` variant (message.rs line 5). -/
def PAYLOAD_ID_ALIVE : Nat := 0

/-- Tag byte of the `UserInfo` variant (message.rs line 6). -/
def PAYLOAD_ID_USER_INFO : Nat := 1

/-- Wire-format payload bound (message.rs line 8). -/
def BRIDGE_MESSAGE_MAX_LENGTH : Nat := 512

/-- Errors of the codec.  In the source these are io errors of kind
InvalidInput with distinct messages plus the end-of-stream error of a short
read; the spec names them InvalidTag, PayloadTooLarge, and we keep the short
read as eof. -/
inductive CodecError
  | invalidTag
  | payloadTooLarge
  | eof
deriving DecidableEq

/-- The message envelope (message.rs, enum BridgeMessage). A Pubkey is its
32 raw bytes. -/
inductive BridgeMessage
  | Alive (program_id : List Nat)
  | UserInfo (message : List Nat)
deriving DecidableEq

/-- Big-endian bytes of a length cast to u16, as in
(message.len() as u16).to_be_bytes(): the cast truncates modulo 2^16, the
two bytes are high then low. -/
def u16_to_be_bytes (n : Nat) : List Nat :=
  [n % 65536 / 256, n % 65536 % 256]

/-- AnchorSerialize for BridgeMessage (message.rs lines 23 to 47): tag byte,
then for Alive the 32 key bytes, for UserInfo a length check against
BRIDGE_MESSAGE_MAX_LENGTH before anything is written, then the big-endian
u16 length and the raw payload bytes in order. -/
def serialize : BridgeMessage → Except CodecError (List Nat)
  | .Alive program_id => .ok (PAYLOAD_ID_ALIVE :: program_id)
  | .UserInfo message =>
      if message.length > BRIDGE_MESSAGE_MAX_LENGTH then
        .error .payloadTooLarge
      else
        .ok (PAYLOAD_ID_USER_INFO :: (u16_to_be_bytes message.length ++ message))

/-- AnchorDeserialize for BridgeMessage (message.rs lines 49 to 74): read the
tag byte; on 0 read exactly 32 bytes into Alive; on 1 read a big-endian u16
length, reject lengths above BRIDGE_MESSAGE_MAX_LENGTH, then read exactly
that many payload bytes; any other tag is invalid.  The unread remainder of
the input is returned alongside the message, modelling the reader position. -/
def deserialize : List Nat → Except CodecError (BridgeMessage × List Nat)
  | [] => .error .eof
  | tag :: rest =>
      if tag = PAYLOAD_ID_ALIVE then
        if 32 ≤ rest.length then
          .ok (.Alive (rest.take 32), rest.drop 32)
        else
          .error .eof
      else if tag = PAYLOAD_ID_USER_INFO then
        match rest with
        | b0 :: b1 :: rest2 =>
            if b0 * 256 + b1 > BRIDGE_MESSAGE_MAX_LENGTH then
              .error .payloadTooLarge
            else if b0 * 256 + b1 ≤ rest2.length then
              .ok (.UserInfo (rest2.take (b0 * 256 + b1)), rest2.drop (b0 * 256 + b1))
            else
              .error .eof
        | _ => .error .eof
      else
        .error .invalidTag

/-- An envelope the source can represent on the wire: an Alive key is
exactly 32 bytes, a UserInfo payload fits the wire bound. -/
def validEnvelope : BridgeMessage → Prop
  | .Alive program_id => program_id.length = 32
  | .UserInfo message => message.length ≤ BRIDGE_MESSAGE_MAX_LENGTH

/-! ## Entitlement decoder and received state (state/received.rs) -/

/-- Storage bound on a received payload (received.rs line 3). -/
def MESSAGE_MAX_LENGTH : Nat := 1024

/-- The UserState account: recipient key bytes and claimable amount
(received.rs lines 7 to 10). -/
structure UserState where
  user : List Nat
  amount : Nat
deriving DecidableEq

/-- Outcome of UserState::decode.  err is the returned
Err(CustomError::InvalidMessage); panic models a Rust panic from
out-of-range slice indexing. -/
inductive DecodeOutcome
  | panic
  | err
  | ok (s : UserState)
deriving DecidableEq

/-- u64::from_le_bytes over a list of bytes, least significant first. -/
def u64_from_le_bytes (bytes : List Nat) : Nat :=
  bytes.foldr (fun b acc => b + 256 * acc) 0

/-- UserState::decode (received.rs lines 13 to 20), verbatim from the
source.  The require! macro returns Err(InvalidMessage) when its condition
is false; the condition written in the source is data.len() != 32 + 8, so
the function errs exactly on 40-byte input and continues otherwise.  The
continuation slices data[0..32] and data[32..40], which panics whenever the
input is shorter than 40 bytes; on longer input it succeeds, taking the
first 32 bytes as the key and bytes 32 to 39 as the little-endian amount. -/
def UserState.decode (data : List Nat) : DecodeOutcome :=
  if data.length ≠ 32 + 8 then
    if data.length < 40 then
      .panic
    else
      .ok ⟨data.take 32, u64_from_le_bytes ((data.drop 32).take 8)⟩
  else
    .err

/-- The Received account (received.rs lines 26 to 33). -/
structure Received where
  batch_id : Nat
  wormhole_message_hash : List Nat
  message : List Nat
deriving DecidableEq

/-! ## Instruction handlers (lib.rs) -/

/-- Wormhole chain identifier of Solana, wormhole::CHAIN_ID_SOLANA. -/
def CHAIN_ID_SOLANA : Nat := 1

/-- The ForeignEmitter account written by register_emitter. -/
structure ForeignEmitter where
  chain : Nat
  address : List Nat
deriving DecidableEq

/-- Errors raised by register_emitter and receive_message
(BridgeMessageError in the error module). -/
inductive BridgeMessageError
  | invalidForeignEmitter
  | invalidMessage
deriving DecidableEq

/-- register_emitter (lib.rs lines 61 to 80): require a positive chain id
distinct from Solana and a not-all-zero address, then overwrite the
ForeignEmitter account with exactly the given pair.  The previous account
value is an argument only to show it is ignored. -/
def register_emitter (prev : ForeignEmitter) (chain : Nat) (address : List Nat) :
    Except BridgeMessageError ForeignEmitter :=
  if chain > 0 ∧ chain ≠ CHAIN_ID_SOLANA ∧ address.all (fun x => x == 0) = false then
    .ok ⟨chain, address⟩
  else
    .error .invalidForeignEmitter

/-- Outcome of receive_message.  err is the returned
Err(BridgeMessageError::InvalidMessage); panic models a Rust panic (the
unwrap of the decode result, or a panic inside decode itself), which aborts
the transaction with every account write rolled back. -/
inductive ReceiveOutcome
  | panic
  | err
  | ok (received : Received) (user_info : UserState)
deriving DecidableEq

/-- receive_message (lib.rs lines 82 to 108): only a UserInfo envelope is
accepted; its payload must fit MESSAGE_MAX_LENGTH; the Received account is
filled with batch id, vaa hash and raw payload; then
UserState::decode(message).unwrap() fills the user_info account.  The
unwrap turns a decode Err into a panic, and a decode panic propagates;
either way the transaction aborts and no account write survives, so the
outcome carries the account values only in the ok case. -/
def receive_message (posted : BridgeMessage) (batch_id : Nat) (vaa_hash : List Nat) :
    ReceiveOutcome :=
  match posted with
  | .UserInfo message =>
      if message.length > MESSAGE_MAX_LENGTH then
        .err
      else
        match UserState.decode message with
        | .ok s => .ok ⟨batch_id, vaa_hash, message⟩ s
        | .err => .panic
        | .panic => .panic
  | .Alive _ => .err

/-- The State account holding the configured owner (lib.rs lines 135 to 138). -/
structure State where
  owner : List Nat
deriving DecidableEq

/-- Errors of claim_token: the first three are the CustomError variants of
lib.rs lines 140 to 150 used by its require! checks; transferFailed stands
for the error propagated from the token transfer CPI by the question-mark
operator. -/
inductive ClaimError
  | invalidUser
  | invalidAmount
  | invalidOwner
  | transferFailed
deriving DecidableEq

/-- Observable effects of the body of claim_token, in program order:
account writes and the outgoing transfer instruction with its source,
destination and amount. -/
inductive ClaimEvent
  | writeAmount (value : Nat)
  | transfer (source dest : List Nat) (amount : Nat)
deriving DecidableEq

/-- The straight-line body of claim_token (lib.rs lines 31 to 59) up to the
CPI: capture amount, require the user key to match, the amount to be
nonzero, the owner key to match; then, in this order, write 0 to the stored
amount and instruct a transfer from the owner account to the user account
of the captured amount. -/
def claim_token_effects (state : State) (user_info : UserState)
    (userKey ownerKey : List Nat) : Except ClaimError (List ClaimEvent) :=
  let amount := user_info.amount
  if user_info.user ≠ userKey then
    .error .invalidUser
  else if amount = 0 then
    .error .invalidAmount
  else if state.owner ≠ ownerKey then
    .error .invalidOwner
  else
    .ok [.writeAmount 0, .transfer ownerKey userKey amount]

/-- Effect of one event on the user_info account. -/
def applyEvent (ui : UserState) : ClaimEvent → UserState
  | .writeAmount v => ⟨ui.user, v⟩
  | .transfer _ _ _ => ui

/-- claim_token with the runtime semantics of an instruction: the effects
of the body run only if the single transfer CPI succeeds (transferOk);
when it fails the question-mark operator aborts the instruction and the
runtime rolls back every account write, so nothing is committed and the
result is an error. -/
def claim_token (state : State) (user_info : UserState)
    (userKey ownerKey : List Nat) (transferOk : Bool) :
    Except ClaimError (UserState × List ClaimEvent) :=
  match claim_token_effects state user_info userKey ownerKey with
  | .error e => .error e
  | .ok evs =>
      if transferOk then
        .ok (evs.foldl applyEvent user_info, evs)
      else
        .error .transferFailed

/-- The user_info account as stored after an instruction: the new value on
success, the unchanged pre-state on abort. -/
def storedAfter (ui : UserState)
    (r : Except ClaimError (UserState × List ClaimEvent)) : UserState :=
  match r with
  | .ok p => p.1
  | .error _ => ui

/-- The effects actually committed by an instruction: none on abort. -/
def committedEvents (r : Except ClaimError (UserState × List ClaimEvent)) :
    List ClaimEvent :=
  match r with
  | .ok p => p.2
  | .error _ => []

/-! ## Theorems -/

/-- C1.  The spec says decode fails unless the payload is exactly 40 bytes
and succeeds on exactly 40 bytes with the recipient and little-endian
amount.  The source has the length check inverted
(require that data.len() != 32 + 8), so the canonical 40-byte payload is
rejected with the malformed-entitlement error, a 39-byte payload panics on
slice indexing, and a 41-byte payload decodes by silently truncating. -/
theorem decode_bug_spec_inputs :
    UserState.decode (List.replicate 40 0) = .err ∧
    UserState.decode (List.replicate 39 0) = .panic ∧
    UserState.decode (List.replicate 41 0) = .ok ⟨List.replicate 32 0, 0⟩ := by
  decide

set_option maxRecDepth 8192

/-- C2.  receive_message does reject a non-UserInfo envelope and an
oversized payload with InvalidMessage, but a UserInfo envelope carrying the
spec-canonical 40-byte entitlement panics: UserState.decode rejects
40-byte input (inverted length check) and receive_message unwraps that
result instead of returning InvalidMessage. -/
theorem receive_message_bug_spec_inputs :
    receive_message (.UserInfo (List.replicate 40 0)) 0 (List.replicate 32 0) = .panic ∧
    receive_message (.Alive (List.replicate 32 0)) 0 (List.replicate 32 0) = .err ∧
    receive_message (.UserInfo (List.replicate 1025 0)) 0 (List.replicate 32 0) = .err := by
  decide

/-- C3.  From a stored entitlement of amount 100 for recipient R with the
configured owner presented, the first claim succeeds, instructs a transfer
of exactly 100, and stores amount 0; an immediately following claim for R
fails with InvalidAmount committing no effect; and any claim against a
stored amount of 0 fails. -/
theorem claim_no_double_spend (state : State) (R O : List Nat) (tOk : Bool)
    (hOwner : state.owner = O) :
    claim_token state ⟨R, 100⟩ R O true =
      .ok (⟨R, 0⟩, [.writeAmount 0, .transfer O R 100]) ∧
    claim_token state ⟨R, 0⟩ R O tOk = .error .invalidAmount ∧
    committedEvents (claim_token state ⟨R, 0⟩ R O tOk) = [] ∧
    (∀ (ui : UserState) (uK oK : List Nat) (t : Bool), ui.amount = 0 →
        ∃ e, claim_token state ui uK oK t = .error e) := by
  subst hOwner
  refine ⟨?_, ?_, ?_, ?_⟩
  · simp [claim_token, claim_token_effects, applyEvent]
  · simp [claim_token, claim_token_effects]
  · simp [claim_token, claim_token_effects, committedEvents]
  · intro ui uK oK t h
    by_cases hu : ui.user = uK
    · exact ⟨.invalidAmount, by simp [claim_token, claim_token_effects, hu, h]⟩
    · exact ⟨.invalidUser, by simp [claim_token, claim_token_effects, hu]⟩

/-- Witness for C3 at a concrete state. -/
theorem claim_no_double_spend_check :
    claim_token ⟨[3]⟩ ⟨[7], 100⟩ [7] [3] true =
      .ok (⟨[7], 0⟩, [.writeAmount 0, .transfer [3] [7] 100]) :=
  (claim_no_double_spend ⟨[3]⟩ [7] [3] true rfl).1

/-- C4.  Whenever the checks of claim_token pass, its effect trace is
exactly the write of 0 to the stored amount followed by the transfer of the
amount captured before the zeroing, so the zeroing strictly precedes the
transfer instruction and the transferred amount is the pre-zero amount;
and a claim whose transfer fails aborts with no committed state change:
the stored record is the untouched pre-state and no effect is committed. -/
theorem claim_zero_before_transfer (state : State) (ui : UserState)
    (uK oK : List Nat) :
    (∀ evs, claim_token_effects state ui uK oK = .ok evs →
        evs = [.writeAmount 0, .transfer oK uK ui.amount] ∧
        claim_token state ui uK oK false = .error .transferFailed) ∧
    storedAfter ui (claim_token state ui uK oK false) = ui ∧
    committedEvents (claim_token state ui uK oK false) = [] := by
  refine ⟨?_, ?_, ?_⟩
  · intro evs hevs
    constructor
    · simp only [claim_token_effects] at hevs
      split at hevs
      · simp at hevs
      · split at hevs
        · simp at hevs
        · split at hevs
          · simp at hevs
          · exact (Except.ok.inj hevs).symm
    · simp [claim_token, hevs]
  · simp only [claim_token]
    cases h : claim_token_effects state ui uK oK <;> simp [storedAfter]
  · simp only [claim_token]
    cases h : claim_token_effects state ui uK oK <;> simp [committedEvents]

/-- Witness for C4 at a concrete passing claim. -/
theorem claim_zero_before_transfer_check :
    [ClaimEvent.writeAmount 0, ClaimEvent.transfer [1] [2] 5] =
      [ClaimEvent.writeAmount 0, ClaimEvent.transfer [1] [2] 5] ∧
    claim_token ⟨[1]⟩ ⟨[2], 5⟩ [2] [1] false = .error .transferFailed :=
  (claim_zero_before_transfer ⟨[1]⟩ ⟨[2], 5⟩ [2] [1]).1
    [ClaimEvent.writeAmount 0, ClaimEvent.transfer [1] [2] 5] rfl

/-- C5.  The checks of claim_token, in the order of the source: a recipient
account other than the stored one fails with InvalidUser; with the
recipient matching, a stored amount of 0 fails with InvalidAmount; with
recipient matching and amount nonzero, an authority other than the
configured owner fails with InvalidOwner; and every failure leaves the
stored record untouched and commits no effect. -/
theorem claim_error_cases (state : State) (ui : UserState)
    (uK oK : List Nat) (t : Bool) :
    (ui.user ≠ uK →
        claim_token state ui uK oK t = .error .invalidUser) ∧
    (ui.user = uK → ui.amount = 0 →
        claim_token state ui uK oK t = .error .invalidAmount) ∧
    (ui.user = uK → ui.amount ≠ 0 → state.owner ≠ oK →
        claim_token state ui uK oK t = .error .invalidOwner) ∧
    (∀ e, claim_token state ui uK oK t = .error e →
        storedAfter ui (claim_token state ui uK oK t) = ui ∧
        committedEvents (claim_token state ui uK oK t) = []) := by
  refine ⟨?_, ?_, ?_, ?_⟩
  · intro h; simp [claim_token, claim_token_effects, h]
  · intro h1 h2; simp [claim_token, claim_token_effects, h1, h2]
  · intro h1 h2 h3; simp [claim_token, claim_token_effects, h1, h2, h3]
  · intro e he
    rw [he]
    simp [storedAfter, committedEvents]

/-- Witness for C5 at a concrete mismatching recipient. -/
theorem claim_error_cases_check :
    claim_token ⟨[9]⟩ ⟨[1], 0⟩ [2] [9] true = .error .invalidUser :=
  (claim_error_cases ⟨[9]⟩ ⟨[1], 0⟩ [2] [9] true).1 (by decide)

/-- C6.  Round trip of the wire codec: every valid envelope (Alive with a
32-byte key, UserInfo with a payload within the 512-byte wire bound)
deserializes from its own serialization to itself, consuming the whole
buffer. -/
theorem envelope_roundtrip (e : BridgeMessage) (h : validEnvelope e) :
    (serialize e).bind deserialize = .ok (e, []) := by
  cases e with
  | Alive program_id =>
      simp only [validEnvelope] at h
      simp [serialize, deserialize, Except.bind, PAYLOAD_ID_ALIVE, h,
        List.take_of_length_le, List.drop_of_length_le, h.ge]
  | UserInfo message =>
      simp only [validEnvelope, BRIDGE_MESSAGE_MAX_LENGTH] at h
      have hm : message.length % 65536 = message.length := Nat.mod_eq_of_lt (by omega)
      have hdm : message.length / 256 * 256 + message.length % 256 = message.length := by
        omega
      simp [serialize, deserialize, Except.bind, PAYLOAD_ID_ALIVE, PAYLOAD_ID_USER_INFO,
        BRIDGE_MESSAGE_MAX_LENGTH, u16_to_be_bytes, hm, Nat.not_lt.mpr h, hdm]

/-- Witness for C6 at a concrete Alive envelope. -/
theorem envelope_roundtrip_check :
    (serialize (.Alive (List.replicate 32 7))).bind deserialize =
      .ok (.Alive (List.replicate 32 7), []) :=
  envelope_roundtrip (.Alive (List.replicate 32 7))
    (by show (List.replicate 32 7).length = 32; decide)

/-- C7.  Case analysis of the deserializer: tag 0 with at least 32 bytes
available returns Alive with exactly those 32 bytes, leaving the rest
unread; tag 1 whose big-endian length exceeds 512 fails with
PayloadTooLarge; tag 1 within the bound and with enough input returns
UserInfo with exactly the declared number of bytes; any other tag fails
with InvalidTag. -/
theorem deserialize_cases (t b0 b1 : Nat) (rest rest2 : List Nat) :
    (32 ≤ rest.length →
        deserialize (0 :: rest) = .ok (.Alive (rest.take 32), rest.drop 32)) ∧
    (512 < b0 * 256 + b1 →
        deserialize (1 :: b0 :: b1 :: rest2) = .error .payloadTooLarge) ∧
    (b0 * 256 + b1 ≤ 512 → b0 * 256 + b1 ≤ rest2.length →
        deserialize (1 :: b0 :: b1 :: rest2) =
          .ok (.UserInfo (rest2.take (b0 * 256 + b1)), rest2.drop (b0 * 256 + b1))) ∧
    (t ≠ 0 → t ≠ 1 → deserialize (t :: rest) = .error .invalidTag) := by
  refine ⟨?_, ?_, ?_, ?_⟩
  · intro h
    simp [deserialize, PAYLOAD_ID_ALIVE, h]
  · intro h
    simp [deserialize, PAYLOAD_ID_ALIVE, PAYLOAD_ID_USER_INFO, BRIDGE_MESSAGE_MAX_LENGTH, h]
  · intro h1 h2
    simp [deserialize, PAYLOAD_ID_ALIVE, PAYLOAD_ID_USER_INFO, BRIDGE_MESSAGE_MAX_LENGTH,
      Nat.not_lt.mpr h1, h2]
  · intro h1 h2
    simp [deserialize, PAYLOAD_ID_ALIVE, PAYLOAD_ID_USER_INFO, h1, h2]

/-- Witness for C7 at a concrete Alive buffer. -/
theorem deserialize_cases_check :
    deserialize (0 :: List.replicate 32 4) =
      .ok (.Alive (List.replicate 32 4), []) :=
  (deserialize_cases 2 0 0 (List.replicate 32 4) []).1 (by decide)

/-- C8.  Serializing a UserInfo envelope within the 512-byte bound writes
the tag byte, the two big-endian length bytes, then the payload verbatim;
above the bound it fails with PayloadTooLarge, and since the source checks
the length before writing anything, the failure produces no output at all
(the error case carries no bytes). -/
theorem serialize_user_info_cases (message : List Nat) :
    (message.length ≤ 512 →
        serialize (.UserInfo message) =
          .ok (1 :: message.length / 256 :: message.length % 256 :: message)) ∧
    (512 < message.length →
        serialize (.UserInfo message) = .error .payloadTooLarge) := by
  constructor
  · intro h
    have hm : message.length % 65536 = message.length := Nat.mod_eq_of_lt (by omega)
    simp [serialize, PAYLOAD_ID_USER_INFO, BRIDGE_MESSAGE_MAX_LENGTH, u16_to_be_bytes,
      hm, Nat.not_lt.mpr h]
  · intro h
    simp [serialize, BRIDGE_MESSAGE_MAX_LENGTH, h]

/-- Witness for C8 at a concrete 3-byte payload. -/
theorem serialize_user_info_cases_check :
    serialize (.UserInfo [5, 6, 7]) = .ok [1, 0, 3, 5, 6, 7] :=
  (serialize_user_info_cases [5, 6, 7]).1 (by decide)

/-- C9.  register_emitter fails with InvalidForeignEmitter when the chain
id is 0, or equals the Solana chain id, or the address is all zero; with
all three conditions met it overwrites the stored record with exactly the
given pair, whatever was stored before. -/
theorem register_emitter_cases (prev : ForeignEmitter) (chain : Nat)
    (address : List Nat) (hchain : chain < 65536) (haddr : address.length = 32) :
    ((chain = 0 ∨ chain = CHAIN_ID_SOLANA ∨ address.all (fun x => x == 0) = true) →
        register_emitter prev chain address = .error .invalidForeignEmitter) ∧
    (chain ≠ 0 → chain ≠ CHAIN_ID_SOLANA → address.all (fun x => x == 0) = false →
        register_emitter prev chain address = .ok ⟨chain, address⟩) := by
  constructor
  · intro h
    rcases h with h | h | h <;> simp [register_emitter, h]
  · intro h1 h2 h3
    simp [register_emitter, Nat.pos_of_ne_zero h1, h2, h3]

/-- Witness for C9 at a concrete valid registration. -/
theorem register_emitter_cases_check :
    register_emitter ⟨0, []⟩ 5 (1 :: List.replicate 31 0) =
      .ok ⟨5, 1 :: List.replicate 31 0⟩ :=
  (register_emitter_cases ⟨0, []⟩ 5 (1 :: List.replicate 31 0)
    (by decide) (by decide)).2 (by decide) (by decide) (by decide)

/-- C10.  UserState.decode is not total: every input shorter than 40 bytes
panics on out-of-range slice indexing instead of returning an error; and
because receive_message unwraps the decode result, a decode error surfaces
as a panic at the public receive interface rather than as a returned
error. -/
theorem decode_partiality (data message vaa : List Nat) (batch : Nat) :
    (data.length < 40 → UserState.decode data = .panic) ∧
    (message.length ≤ MESSAGE_MAX_LENGTH → UserState.decode message = .err →
        receive_message (.UserInfo message) batch vaa = .panic) := by
  constructor
  · intro h
    simp [UserState.decode, h, Nat.ne_of_lt h]
  · intro h1 h2
    simp [receive_message, MESSAGE_MAX_LENGTH, h2]
    exact h1

/-- Witness for C10 at the empty payload and a 40-byte payload. -/
theorem decode_partiality_check :
    UserState.decode ([] : List Nat) = .panic ∧
    receive_message (.UserInfo (List.replicate 40 0)) 0 [] = .panic :=
  ⟨(decode_partiality [] (List.replicate 40 0) [] 0).1 (by decide),
   (decode_partiality [] (List.replicate 40 0) [] 0).2 (by decide) (by decide)⟩

end ClaimTokenBridge
